import Mathlib

/-!
Shallow embedding of the analytical core of `stock_analyzer.py`
(class `StockAnalyzer`): indicator computation, signal generation,
signal aggregation and risk metrics, together with theorems that
settle the specification claims about that code.

Numbers are modelled by `ℚ`; a pandas/numpy NaN (an undefined entry
of a series, e.g. a rolling window that is not yet filled, or the
result of a degenerate division) is modelled by `none : Option ℚ`.
Comparisons against NaN are `false`, as for IEEE floats, and NaN
propagates through arithmetic, as in pandas.
-/

set_option autoImplicit false

namespace StockAnalyzer

/-! ### Signals and the recommendation aggregator
(`calculate_signal_strength`, `stock_analyzer.py` lines 158-179) -/

/-- The three signal values produced by `generate_signals`. -/
inductive Signal where
  | BUY
  | SELL
  | HOLD
deriving DecidableEq

/-- `calculate_signal_strength(signals)`: the input list is the sequence of
values of the Python dict (the function reads only the value counts and the
dict size).  Returns `(strength, recommendation)`.  Mirrors lines 158-179:
an empty dict returns `(0, NEUTRAL)`; otherwise majority vote with the
strength `(count / total) * 100`, tie giving `(50, HOLD)`. -/
def calculate_signal_strength (signals : List Signal) : ℚ × String :=
  if signals.isEmpty then (0, ("NEUTRAL"))
  else
    let buy_count := signals.count Signal.BUY
    let sell_count := signals.count Signal.SELL
    let total_signals := signals.length
    if buy_count > sell_count then
      (((buy_count : ℚ) / (total_signals : ℚ)) * 100, ("BUY"))
    else if sell_count > buy_count then
      (((sell_count : ℚ) / (total_signals : ℚ)) * 100, ("SELL"))
    else
      ((50 : ℚ), ("HOLD"))

/-- Swapping BUY and SELL in a signal list (used for the symmetry claim). -/
def swapSignal : Signal → Signal
  | Signal.BUY => Signal.SELL
  | Signal.SELL => Signal.BUY
  | Signal.HOLD => Signal.HOLD

/-- The corresponding swap on the output recommendation string. -/
def swapRecommendation (r : String) : String :=
  if r = ("BUY") then ("SELL") else if r = ("SELL") then ("BUY") else r

theorem count_signal_partition (l : List Signal) :
    l.count Signal.BUY + l.count Signal.SELL + l.count Signal.HOLD = l.length := by
  induction l with
  | nil => rfl
  | cons a t ih => cases a <;> simp [List.count_cons] <;> omega

theorem count_map_swap_buy (l : List Signal) :
    (l.map swapSignal).count Signal.BUY = l.count Signal.SELL := by
  induction l with
  | nil => rfl
  | cons a t ih => cases a <;> simp [swapSignal, List.count_cons, ih]

theorem count_map_swap_sell (l : List Signal) :
    (l.map swapSignal).count Signal.SELL = l.count Signal.BUY := by
  induction l with
  | nil => rfl
  | cons a t ih => cases a <;> simp [swapSignal, List.count_cons, ih]

/-- C4: for every non-empty signal set, the aggregator returns BUY with
strength `100 * buy / total` when buys outnumber sells, SELL with strength
`100 * sell / total` when sells outnumber buys, and HOLD with strength 50
on a tie (including the all-HOLD case). -/
theorem C4_aggregator_majority_rule (signals : List Signal) (hne : signals ≠ []) :
    (signals.count Signal.SELL < signals.count Signal.BUY →
       calculate_signal_strength signals
         = (100 * (signals.count Signal.BUY : ℚ) / (signals.length : ℚ), ("BUY")))
  ∧ (signals.count Signal.BUY < signals.count Signal.SELL →
       calculate_signal_strength signals
         = (100 * (signals.count Signal.SELL : ℚ) / (signals.length : ℚ), ("SELL")))
  ∧ (signals.count Signal.BUY = signals.count Signal.SELL →
       calculate_signal_strength signals = (50, ("HOLD"))) := by
  have hemp : signals.isEmpty = false := by
    cases signals with
    | nil => exact absurd rfl hne
    | cons a t => rfl
  rw [calculate_signal_strength]
  rw [hemp]
  simp only [Bool.false_eq_true, if_false]
  refine ⟨fun h => ?_, fun h => ?_, fun h => ?_⟩
  · rw [if_pos h]
    rw [Prod.mk.injEq]
    exact ⟨by ring, rfl⟩
  · rw [if_neg (by omega), if_pos h]
    rw [Prod.mk.injEq]
    exact ⟨by ring, rfl⟩
  · rw [if_neg (by omega), if_neg (by omega)]

theorem C4_aggregator_majority_rule_witness :
    calculate_signal_strength [Signal.BUY]
      = (100 * (([Signal.BUY].count Signal.BUY : ℕ) : ℚ) / (([Signal.BUY].length : ℕ) : ℚ),
         ("BUY")) :=
  (C4_aggregator_majority_rule [Signal.BUY] (by decide)).1 (by decide)

/-- C5 counterexample: on the empty signal set the aggregator returns the
recommendation string NEUTRAL, which is none of BUY, SELL, HOLD; so the
claim, which includes the empty set, fails there. -/
theorem C5_empty_set_counterexample :
    ¬ ((calculate_signal_strength []).2 = ("BUY")
        ∨ (calculate_signal_strength []).2 = ("SELL")
        ∨ (calculate_signal_strength []).2 = ("HOLD")) := by
  decide

/-- C5 (amended): the strength always lies in [0, 100]; for every NON-EMPTY
signal set the recommendation is one of BUY, SELL, HOLD; the empty set gets
`(0, NEUTRAL)`; and the output is determined solely by the BUY/SELL/HOLD
counts. -/
theorem C5_strength_bounds_and_determinism (signals : List Signal) :
    (0 ≤ (calculate_signal_strength signals).1
       ∧ (calculate_signal_strength signals).1 ≤ 100)
  ∧ (signals ≠ [] →
       (calculate_signal_strength signals).2 = ("BUY")
         ∨ (calculate_signal_strength signals).2 = ("SELL")
         ∨ (calculate_signal_strength signals).2 = ("HOLD"))
  ∧ (signals = [] → calculate_signal_strength signals = (0, ("NEUTRAL")))
  ∧ (∀ other : List Signal,
       signals.count Signal.BUY = other.count Signal.BUY →
       signals.count Signal.SELL = other.count Signal.SELL →
       signals.count Signal.HOLD = other.count Signal.HOLD →
       calculate_signal_strength signals = calculate_signal_strength other) := by
  constructor
  · cases signals with
    | nil => constructor <;> norm_num [calculate_signal_strength]
    | cons a t =>
      have hlen : (0 : ℚ) < ((a :: t).length : ℚ) := by
        have : 0 < (a :: t).length := by simp
        exact_mod_cast this
      have hb : ((a :: t).count Signal.BUY : ℚ) ≤ ((a :: t).length : ℚ) := by
        exact_mod_cast List.count_le_length Signal.BUY (a :: t)
      have hs : ((a :: t).count Signal.SELL : ℚ) ≤ ((a :: t).length : ℚ) := by
        exact_mod_cast List.count_le_length Signal.SELL (a :: t)
      have hb0 : (0 : ℚ) ≤ ((a :: t).count Signal.BUY : ℚ) := by positivity
      have hs0 : (0 : ℚ) ≤ ((a :: t).count Signal.SELL : ℚ) := by positivity
      rw [calculate_signal_strength]
      simp only [List.isEmpty_cons, Bool.false_eq_true, if_false]
      split_ifs
      · constructor
        · have := div_nonneg hb0 (le_of_lt hlen)
          simpa using mul_nonneg this (by norm_num : (0:ℚ) ≤ 100)
        · have h1 : ((a :: t).count Signal.BUY : ℚ) / ((a :: t).length : ℚ) ≤ 1 :=
            (div_le_one hlen).mpr hb
          calc ((a :: t).count Signal.BUY : ℚ) / ((a :: t).length : ℚ) * 100
              ≤ 1 * 100 := by
                exact mul_le_mul_of_nonneg_right h1 (by norm_num)
            _ = 100 := by norm_num
      · constructor
        · have := div_nonneg hs0 (le_of_lt hlen)
          simpa using mul_nonneg this (by norm_num : (0:ℚ) ≤ 100)
        · have h1 : ((a :: t).count Signal.SELL : ℚ) / ((a :: t).length : ℚ) ≤ 1 :=
            (div_le_one hlen).mpr hs
          calc ((a :: t).count Signal.SELL : ℚ) / ((a :: t).length : ℚ) * 100
              ≤ 1 * 100 := by
                exact mul_le_mul_of_nonneg_right h1 (by norm_num)
            _ = 100 := by norm_num
      · norm_num
  refine ⟨fun hne => ?_, fun hemp => ?_, fun other hB hS hH => ?_⟩
  · have hemp : signals.isEmpty = false := by
      cases signals with
      | nil => exact absurd rfl hne
      | cons a t => rfl
    rw [calculate_signal_strength, hemp]
    simp only [Bool.false_eq_true, if_false]
    split_ifs
    · exact Or.inl rfl
    · exact Or.inr (Or.inl rfl)
    · exact Or.inr (Or.inr rfl)
  · subst hemp
    rfl
  · have hlen : signals.length = other.length := by
      have h1 := count_signal_partition signals
      have h2 := count_signal_partition other
      omega
    have he : signals.isEmpty = other.isEmpty := by
      cases signals with
      | nil =>
        cases other with
        | nil => rfl
        | cons b u => simp at hlen
      | cons a t =>
        cases other with
        | nil => simp at hlen
        | cons b u => rfl
    rw [calculate_signal_strength, calculate_signal_strength, he, hB, hS, hlen]

theorem C5_strength_bounds_and_determinism_witness :
    ((calculate_signal_strength [Signal.HOLD]).2 = ("BUY")
       ∨ (calculate_signal_strength [Signal.HOLD]).2 = ("SELL")
       ∨ (calculate_signal_strength [Signal.HOLD]).2 = ("HOLD"))
  ∧ calculate_signal_strength [] = (0, ("NEUTRAL"))
  ∧ calculate_signal_strength [Signal.BUY, Signal.SELL]
      = calculate_signal_strength [Signal.SELL, Signal.BUY] :=
  ⟨(C5_strength_bounds_and_determinism [Signal.HOLD]).2.1 (by decide),
   (C5_strength_bounds_and_determinism []).2.2.1 rfl,
   (C5_strength_bounds_and_determinism [Signal.BUY, Signal.SELL]).2.2.2
     [Signal.SELL, Signal.BUY] (by decide) (by decide) (by decide)⟩

/-- C6: replacing every BUY by SELL and vice versa in the input swaps the
output recommendation (BUY to SELL, SELL to BUY, anything else fixed) and
leaves the strength unchanged. -/
theorem C6_swap_buy_sell_symmetry (signals : List Signal) :
    calculate_signal_strength (signals.map swapSignal)
      = ((calculate_signal_strength signals).1,
         swapRecommendation (calculate_signal_strength signals).2) := by
  have hlen : (signals.map swapSignal).length = signals.length := by simp
  have hemp : (signals.map swapSignal).isEmpty = signals.isEmpty := by
    cases signals <;> rfl
  rw [calculate_signal_strength, calculate_signal_strength, hemp,
    count_map_swap_buy, count_map_swap_sell, hlen]
  cases h : signals.isEmpty with
  | true => rfl
  | false =>
    simp only [Bool.false_eq_true, if_false]
    rcases lt_trichotomy (signals.count Signal.SELL) (signals.count Signal.BUY) with
      hc | hc | hc
    · rw [if_neg (by omega), if_pos (by omega), if_pos (by omega)]
      rfl
    · rw [if_neg (by omega), if_neg (by omega), if_neg (by omega), if_neg (by omega)]
      rfl
    · rw [if_pos (by omega), if_neg (by omega), if_pos (by omega)]
      rfl

/-! ### NaN-aware series values

A series entry is `Option ℚ`: `none` models a missing value (NaN).
Arithmetic propagates `none`; comparisons with `none` are `false`, as
all IEEE comparisons with NaN are; `odiv` also returns `none` for a zero
denominator (numpy produces a non-finite float, NaN or signed infinity,
there; the claims below never depend on the distinction, and the
positivity hypotheses on price series keep the embedding exact). -/

abbrev Col := List (Option ℚ)

def oadd : Option ℚ → Option ℚ → Option ℚ
  | some a, some b => some (a + b)
  | _, _ => none

def osub : Option ℚ → Option ℚ → Option ℚ
  | some a, some b => some (a - b)
  | _, _ => none

def omul : Option ℚ → Option ℚ → Option ℚ
  | some a, some b => some (a * b)
  | _, _ => none

def odiv : Option ℚ → Option ℚ → Option ℚ
  | some a, some b => if b = 0 then none else some (a / b)
  | _, _ => none

def olt : Option ℚ → Option ℚ → Bool
  | some a, some b => decide (a < b)
  | _, _ => false

def ole : Option ℚ → Option ℚ → Bool
  | some a, some b => decide (a ≤ b)
  | _, _ => false

def ogt (a b : Option ℚ) : Bool := olt b a

def oge (a b : Option ℚ) : Bool := ole b a

/-! ### Rolling-window and exponentially-weighted primitives
(the pandas operations used by the `ta` indicator functions called in
`calculate_technical_indicators`) -/

/-- The defined (non-NaN) values of the trailing window of width `w`
ending at position `i`. -/
def windowAt (w : ℕ) (xs : Col) (i : ℕ) : List ℚ :=
  ((xs.take (i + 1)).drop (i + 1 - w)).filterMap id

/-- `series.rolling(w, min_periods=minp).f()`: apply `f` to the defined
values of each trailing window, requiring at least `minp` of them. -/
def rollingApply (w minp : ℕ) (f : List ℚ → ℚ) (xs : Col) : Col :=
  (List.range xs.length).map fun i =>
    let vals := windowAt w xs i
    if minp ≤ vals.length then some (f vals) else none

def listMean (v : List ℚ) : ℚ := v.sum / v.length

def listMin (v : List ℚ) : ℚ := v.foldl min (v.headD 0)

def listMax (v : List ℚ) : ℚ := v.foldl max (v.headD 0)

def rollingMean (w minp : ℕ) (xs : Col) : Col := rollingApply w minp listMean xs

def rollingMin (w minp : ℕ) (xs : Col) : Col := rollingApply w minp listMin xs

def rollingMax (w minp : ℕ) (xs : Col) : Col := rollingApply w minp listMax xs

/-- Rolling population standard deviation (`.std(ddof=0)`, as the `ta`
Bollinger implementation uses); `sq` is the abstract square root the whole
embedding is parametrised by (exact square roots do not exist in `ℚ`; no
claim below depends on any property of `sq`). -/
def rollingStd0 (sq : ℚ → ℚ) (w minp : ℕ) (xs : Col) : Col :=
  rollingApply w minp (fun v => sq (listMean (v.map fun x => (x - listMean v) ^ 2))) xs

/-- State of the pandas `ewm(adjust=False, ignore_na=False).mean()` loop:
the carried weighted average, the decayed weight of that average, and the
number of observations seen. -/
structure EwmState where
  mean : Option ℚ
  wt : ℚ
  nobs : ℕ

def ewmInit : EwmState := { mean := none, wt := 1, nobs := 0 }

/-- One step of the pandas exponentially-weighted mean: a NaN input decays
the old weight; an observation combines with weight `a` and resets the old
weight to 1 (`adjust=False`). -/
def ewmStep (a : ℚ) (s : EwmState) (x : Option ℚ) : EwmState :=
  match x with
  | none => { s with wt := s.wt * (1 - a) }
  | some v =>
    match s.mean with
    | none => { mean := some v, wt := 1, nobs := s.nobs + 1 }
    | some m =>
      let w := s.wt * (1 - a)
      { mean := some ((w * m + a * v) / (w + a)), wt := 1, nobs := s.nobs + 1 }

def ewmGo (a : ℚ) (minp : ℕ) : EwmState → Col → Col
  | _, [] => []
  | s, x :: xs =>
    let s2 := ewmStep a s x
    (if minp ≤ s2.nobs then s2.mean else none) :: ewmGo a minp s2 xs

/-- `series.ewm(alpha=a, min_periods=minp, adjust=False).mean()`. -/
def ewmMean (a : ℚ) (minp : ℕ) (xs : Col) : Col := ewmGo a minp ewmInit xs

/-! ### The `ta` indicator functions called in
`calculate_technical_indicators` (lines 37-59) -/

/-- `ta.trend.sma_indicator(close, window)`: rolling mean, NaN until the
window is filled. -/
def sma_indicator (window : ℕ) (close : Col) : Col := rollingMean window window close

/-- `ta.trend.ema_indicator(close, window)`:
`close.ewm(span=window, min_periods=window, adjust=False).mean()`,
with span alpha `2/(window+1)`. -/
def ema_indicator (window : ℕ) (close : Col) : Col :=
  ewmMean (2 / ((window : ℚ) + 1)) window close

/-- The MACD line, EMA(12) minus EMA(26) (attribute `_macd` of the `ta`
class `MACD`). -/
def macd_line (close : Col) : Col :=
  List.zipWith osub (ema_indicator 12 close) (ema_indicator 26 close)

/-- `ta.trend.macd_signal(close)`: EMA(9) of the MACD line (nine defined
MACD values are needed before it is defined). -/
def macd_signal (close : Col) : Col := ewmMean (2 / 10) 9 (macd_line close)

/-- `ta.trend.macd_diff(close)`: the MACD histogram, MACD line minus
signal line.  This, not the MACD line, is what line 43 of the source
stores in the `MACD` column. -/
def macd_diff (close : Col) : Col :=
  List.zipWith osub (macd_line close) (macd_signal close)

/-- `series.diff(1)`: NaN first entry, then successive differences. -/
def diff1 (xs : Col) : Col :=
  match xs with
  | [] => []
  | _ :: rest => none :: List.zipWith osub rest xs

/-- `series.where(cond, 0.0)`: keep the entries satisfying `cond` (false
on NaN), replace the others by 0. -/
def whereKeep (cond : Option ℚ → Bool) (xs : Col) : Col :=
  xs.map fun x => if cond x then x else some 0

/-- `ta.momentum.rsi(close, window=14)`: smoothed average up and down
moves via `ewm(alpha=1/window, min_periods=window)`, then
`100 - 100/(1+RS)` with the average-loss-zero case mapped to 100. -/
def rsi (window : ℕ) (close : Col) : Col :=
  let d := diff1 close
  let up := whereKeep (fun x => olt (some 0) x) d
  let dn := (whereKeep (fun x => olt x (some 0)) d).map fun x => x.map Neg.neg
  let emaup := ewmMean (1 / (window : ℚ)) window up
  let emadn := ewmMean (1 / (window : ℚ)) window dn
  List.zipWith
    (fun u dv =>
      match dv with
      | none => none
      | some dvv =>
        if dvv = 0 then some 100
        else (odiv u (some dvv)).bind fun rs =>
          osub (some 100) (odiv (some 100) (some (1 + rs))))
    emaup emadn

/-- `ta.volatility.bollinger_mavg(close)`: SMA(20). -/
def bollinger_mavg (close : Col) : Col := rollingMean 20 20 close

/-- `ta.volatility.bollinger_hband(close)`: SMA(20) plus two rolling
population standard deviations. -/
def bollinger_hband (sq : ℚ → ℚ) (close : Col) : Col :=
  List.zipWith (fun m d => oadd m (omul (some 2) d))
    (bollinger_mavg close) (rollingStd0 sq 20 20 close)

/-- `ta.volatility.bollinger_lband(close)`: SMA(20) minus two rolling
population standard deviations. -/
def bollinger_lband (sq : ℚ → ℚ) (close : Col) : Col :=
  List.zipWith (fun m d => osub m (omul (some 2) d))
    (bollinger_mavg close) (rollingStd0 sq 20 20 close)

/-- `ta.momentum.stoch(high, low, close)`: %K(14), the position of the
close inside the 14-period low-high range, scaled to 100 (NaN for a zero
range, where numpy divides 0 by 0). -/
def stoch (high low close : Col) : Col :=
  let smin := rollingMin 14 14 low
  let smax := rollingMax 14 14 high
  List.zipWith (fun c p => omul (some 100) (odiv (osub c p.1) (osub p.2 p.1)))
    close (smin.zip smax)

/-- `ta.momentum.stoch_signal(high, low, close)`: %D, the 3-period SMA of
%K. -/
def stoch_signal (high low close : Col) : Col :=
  rollingMean 3 3 (stoch high low close)

/-- `ta.volume.volume_sma(close, volume)`: a simple moving average of the
volume series (an old `ta` helper; its exact window does not affect any
claim, 20 is used here). -/
def volume_sma (_close volume : Col) : Col := rollingMean 20 20 volume

/-! ### RiskEngine: `calculate_volatility` (lines 63-78) and
`calculate_risk_metrics` (lines 80-95) -/

/-- `series.mean()`: NaN on an empty series. -/
def smean (xs : List ℚ) : Option ℚ :=
  if xs.isEmpty then none else some (xs.sum / xs.length)

/-- `series.std()` (sample standard deviation, ddof=1): NaN with fewer
than two observations, else `sq` of the sample variance. -/
def sstd (sq : ℚ → ℚ) (xs : List ℚ) : Option ℚ :=
  if xs.length < 2 then none
  else some (sq ((xs.map fun x => (x - xs.sum / xs.length) ^ 2).sum / ((xs.length : ℚ) - 1)))

/-- `close.pct_change()`: NaN first entry, then `close_t/close_(t-1) - 1`. -/
def pct_change (xs : List ℚ) : Col :=
  match xs with
  | [] => []
  | _ :: rest =>
    none :: List.zipWith (fun a b => (odiv (some a) (some b)).map fun r => r - 1) rest xs

/-- `.dropna()`: the defined values of a series. -/
def dropna (c : Col) : List ℚ := c.filterMap id

/-- `returns = data.Close.pct_change().dropna()`. -/
def returnsOf (closes : List ℚ) : List ℚ := dropna (pct_change closes)

/-- `close.expanding().max()`: the running maximum. -/
def runningMaxAux (m : ℚ) : List ℚ → List ℚ
  | [] => []
  | x :: xs => max m x :: runningMaxAux (max m x) xs

def runningMax : List ℚ → List ℚ
  | [] => []
  | x :: xs => x :: runningMaxAux x xs

/-- `series.min()`: pandas skips NaN and returns NaN when no entry is
defined. -/
def colMin (c : Col) : Option ℚ :=
  match dropna c with
  | [] => none
  | v :: vs => some (vs.foldl min v)

/-- `(data.Close / data.Close.expanding().max() - 1).min()`, the max
drawdown expression of lines 73 and 91. -/
def max_drawdown (closes : List ℚ) : Option ℚ :=
  colMin (List.zipWith (fun c m => (odiv (some c) (some m)).map fun r => r - 1)
    closes (runningMax closes))

def sortedInsert (x : ℚ) : List ℚ → List ℚ
  | [] => [x]
  | y :: ys => if x ≤ y then x :: y :: ys else y :: sortedInsert x ys

def sortAsc : List ℚ → List ℚ
  | [] => []
  | x :: xs => sortedInsert x (sortAsc xs)

/-- `returns.quantile(0.05)`: pandas linear interpolation on the sorted
values at fractional position `(n-1)/20`; NaN on an empty series. -/
def quantile05 (xs : List ℚ) : Option ℚ :=
  match sortAsc xs with
  | [] => none
  | v :: vs =>
    let pos : ℚ := ((xs.length : ℚ) - 1) / 20
    let j : ℕ := pos.floor.toNat
    let g : ℚ := pos - (j : ℚ)
    let base := (v :: vs).getD j v
    some (base + g * ((v :: vs).getD (j + 1) base - base))

structure VolatilityMetrics where
  daily_volatility : Option ℚ
  annualized_volatility : Option ℚ
  max_drawdown : Option ℚ
  var_95 : Option ℚ
  cvar_95 : Option ℚ
deriving DecidableEq

structure RiskMetrics where
  sharpe_ratio : Option ℚ
  sortino_ratio : Option ℚ
  calmar_ratio : Option ℚ
  total_return : Option ℚ
deriving DecidableEq

/-- `self.risk_free_rate = 0.02` (constructor, line 16). -/
def risk_free_rate : ℚ := 2 / 100

/-- `calculate_volatility(data)` on the closing-price series: `None` for
missing/empty data, else the five volatility statistics. -/
def calculate_volatility (sq : ℚ → ℚ) (closes : List ℚ) : Option VolatilityMetrics :=
  if closes.isEmpty then none
  else
    let returns := returnsOf closes
    some
      { daily_volatility := sstd sq returns
        annualized_volatility := omul (sstd sq returns) (some (sq 252))
        max_drawdown := max_drawdown closes
        var_95 := quantile05 returns
        cvar_95 :=
          match quantile05 returns with
          | none => none
          | some q => smean (returns.filter fun r => decide (r ≤ q)) }

/-- `calculate_risk_metrics(data)` on the closing-price series: `None` for
missing/empty data, else the four risk-adjusted-return statistics. -/
def calculate_risk_metrics (sq : ℚ → ℚ) (closes : List ℚ) : Option RiskMetrics :=
  if closes.isEmpty then none
  else
    let returns := returnsOf closes
    let excess_returns := returns.map fun r => r - risk_free_rate / 252
    some
      { sharpe_ratio := omul (odiv (smean excess_returns) (sstd sq returns)) (some (sq 252))
        sortino_ratio :=
          omul (odiv (smean excess_returns) (sstd sq (returns.filter fun r => decide (r < 0))))
            (some (sq 252))
        calmar_ratio := odiv (omul (smean returns) (some 252)) ((max_drawdown closes).map abs)
        total_return :=
          match closes.head?, closes.getLast? with
          | some f, some l => (odiv (some l) (some f)).map fun r => (r - 1) * 100
          | _, _ => none }

@[simp] theorem odiv_zero_right (x : Option ℚ) : odiv x (some 0) = none := by
  cases x <;> simp [odiv]

@[simp] theorem odiv_none_left (y : Option ℚ) : odiv none y = none := by
  cases y <;> rfl

@[simp] theorem odiv_none_right (x : Option ℚ) : odiv x none = none := by
  cases x <;> rfl

@[simp] theorem omul_none_left (y : Option ℚ) : omul none y = none := by
  cases y <;> rfl

/-- C3: for every non-empty positive closing-price series the risk-metric
computation returns a full record (it never raises, and no metric aborts
the others, every field being a total function of the series alone), and
each named degenerate denominator yields the undefined marker: no negative
returns make Sortino undefined, a zero max drawdown makes Calmar
undefined, a zero return standard deviation makes Sharpe undefined. -/
theorem C3_degenerate_denominators_markers (sq : ℚ → ℚ) (closes : List ℚ)
    (hne : closes ≠ []) :
    ∃ rm : RiskMetrics, calculate_risk_metrics sq closes = some rm
      ∧ ((returnsOf closes).filter (fun r => decide (r < 0)) = [] → rm.sortino_ratio = none)
      ∧ (max_drawdown closes = some 0 → rm.calmar_ratio = none)
      ∧ (sstd sq (returnsOf closes) = some 0 → rm.sharpe_ratio = none) := by
  have hemp : closes.isEmpty = false := by
    cases closes with
    | nil => exact absurd rfl hne
    | cons a t => rfl
  rw [calculate_risk_metrics, hemp]
  simp only [Bool.false_eq_true, if_false]
  refine ⟨_, rfl, fun h => ?_, fun h => ?_, fun h => ?_⟩
  · simp only [h, sstd, List.length_nil, Nat.lt_of_sub_eq_succ, if_pos (by norm_num : 0 < 2)]
    simp
  · simp [h]
  · simp [h]

theorem C3_degenerate_denominators_markers_witness :
    ∃ rm : RiskMetrics, calculate_risk_metrics (fun q => q) [100, 100, 100] = some rm
      ∧ rm.sortino_ratio = none ∧ rm.calmar_ratio = none ∧ rm.sharpe_ratio = none := by
  obtain ⟨rm, h1, h2, h3, h4⟩ :=
    C3_degenerate_denominators_markers (fun q => q) [100, 100, 100] (by simp)
  have hpc : pct_change [100, 100, 100] = [none, some 0, some 0] := by
    norm_num [pct_change, odiv]
  have hret : returnsOf [100, 100, 100] = [0, 0] := by
    rw [returnsOf, hpc]
    rfl
  refine ⟨rm, h1, h2 ?_, h3 ?_, h4 ?_⟩
  · rw [hret]
    rfl
  · have hdd : List.zipWith (fun c m => (odiv (some c) (some m)).map fun r => r - 1)
        [100, 100, 100] (runningMax [100, 100, 100]) = [some 0, some 0, some 0] := by
      norm_num [runningMax, runningMaxAux, odiv, max_self]
    rw [max_drawdown, hdd]
    rfl
  · rw [hret]
    norm_num [sstd]

/-- C8 counterexample: on the one-point series [100] both engine functions
return a record, not the undefined result the claim requires for every
series with fewer than two points. -/
theorem C8_length_one_counterexample :
    calculate_volatility (fun q => q) [100] ≠ none
      ∧ calculate_risk_metrics (fun q => q) [100] ≠ none := by
  decide

/-- C8 (amended): the engines return the undefined result exactly for
empty data; on a one-point series they return a record whose return-based
entries are the undefined marker, while max drawdown and total return are
computed as 0. -/
theorem C8_undefined_only_for_empty (sq : ℚ → ℚ) (c : ℚ) (hc : c ≠ 0) :
    calculate_volatility sq [] = none
  ∧ calculate_risk_metrics sq [] = none
  ∧ calculate_volatility sq [c]
      = some { daily_volatility := none, annualized_volatility := none,
               max_drawdown := some 0, var_95 := none, cvar_95 := none }
  ∧ calculate_risk_metrics sq [c]
      = some { sharpe_ratio := none, sortino_ratio := none,
               calmar_ratio := none, total_return := some 0 } := by
  refine ⟨rfl, rfl, ?_, ?_⟩
  · simp [calculate_volatility, returnsOf, pct_change, dropna, sstd, smean, quantile05,
      sortAsc, max_drawdown, runningMax, runningMaxAux, colMin, odiv, hc, omul]
  · simp [calculate_risk_metrics, returnsOf, pct_change, dropna, sstd, smean,
      max_drawdown, runningMax, runningMaxAux, colMin, odiv, hc, omul]

theorem C8_undefined_only_for_empty_witness :
    calculate_volatility (fun q => q) [] = none
  ∧ calculate_risk_metrics (fun q => q) [] = none
  ∧ calculate_volatility (fun q => q) [100]
      = some { daily_volatility := none, annualized_volatility := none,
               max_drawdown := some 0, var_95 := none, cvar_95 := none }
  ∧ calculate_risk_metrics (fun q => q) [100]
      = some { sharpe_ratio := none, sortino_ratio := none,
               calmar_ratio := none, total_return := some 0 } :=
  C8_undefined_only_for_empty (fun q => q) 100 (by norm_num)

theorem foldl_min_le_init (v : ℚ) (l : List ℚ) : l.foldl min v ≤ v := by
  induction l generalizing v with
  | nil => simp
  | cons u us ih => exact le_trans (ih (min v u)) (min_le_left v u)

/-- C9: for every non-empty positive closing-price series the max drawdown
is a defined, non-positive number. -/
theorem C9_max_drawdown_nonpositive (closes : List ℚ) (hne : closes ≠ [])
    (hpos : ∀ c ∈ closes, 0 < c) :
    ∃ d : ℚ, max_drawdown closes = some d ∧ d ≤ 0 := by
  cases closes with
  | nil => exact absurd rfl hne
  | cons c rest =>
    have hc : c ≠ 0 := ne_of_gt (hpos c (by simp))
    rw [max_drawdown, runningMax]
    simp only [List.zipWith_cons_cons]
    rw [show (odiv (some c) (some c)).map (fun r => r - 1) = some 0 by
      simp [odiv, hc, div_self hc]]
    rw [colMin]
    simp only [dropna, List.filterMap_cons]
    exact ⟨_, rfl, foldl_min_le_init 0 _⟩

theorem C9_max_drawdown_nonpositive_witness :
    ∃ d : ℚ, max_drawdown [100, 80] = some d ∧ d ≤ 0 :=
  C9_max_drawdown_nonpositive [100, 80] (by decide) (by decide)

/-! ### The price DataFrame and `calculate_technical_indicators`
(lines 29-61) -/

/-- A pandas DataFrame, as the core uses it: named columns of aligned
series values. -/
abbrev Frame := List (String × Col)

/-- `df[name]` (all reads in the core are of columns that exist). -/
def Frame.col (f : Frame) (name : String) : Col := (f.lookup name).getD []

/-- `df[name] = col`: replace the column, or append a new one. -/
def Frame.setcol : Frame → String → Col → Frame
  | [], n, c => [(n, c)]
  | (k, v) :: rest, n, c =>
    if k = n then (n, c) :: rest else (k, v) :: Frame.setcol rest n c

/-- `data.empty` / `len(data)`: the provider columns share one length; the
Close column is used as the row count. -/
def Frame.nrows (f : Frame) : ℕ := (Frame.col f ("Close")).length

/-- A provider frame built from the OHLCV series of the market-data
client (whose values carry no NaN). -/
def mkFrame (o h l c v : List ℚ) : Frame :=
  [(("Open"), o.map some), (("High"), h.map some), (("Low"), l.map some),
   (("Close"), c.map some), (("Volume"), v.map some)]

/-- `calculate_technical_indicators(data)` (lines 29-61): `None` for
missing or empty data, else a copy of the frame with the indicator
columns added (`df = data.copy()` gives the copy value semantics used
here; the aliasing aspect is modelled separately by the heap embedding
below). -/
def calculate_technical_indicators (sq : ℚ → ℚ) (data : Option Frame) : Option Frame :=
  match data with
  | none => none
  | some data =>
    if Frame.nrows data = 0 then none
    else
      let df := data
      let df := Frame.setcol df ("SMA_20") (sma_indicator 20 (Frame.col df ("Close")))
      let df := Frame.setcol df ("SMA_50") (sma_indicator 50 (Frame.col df ("Close")))
      let df := Frame.setcol df ("EMA_12") (ema_indicator 12 (Frame.col df ("Close")))
      let df := Frame.setcol df ("EMA_26") (ema_indicator 26 (Frame.col df ("Close")))
      let df := Frame.setcol df ("MACD") (macd_diff (Frame.col df ("Close")))
      let df := Frame.setcol df ("MACD_Signal") (macd_signal (Frame.col df ("Close")))
      let df := Frame.setcol df ("RSI") (rsi 14 (Frame.col df ("Close")))
      let df := Frame.setcol df ("BB_Upper") (bollinger_hband sq (Frame.col df ("Close")))
      let df := Frame.setcol df ("BB_Lower") (bollinger_lband sq (Frame.col df ("Close")))
      let df := Frame.setcol df ("BB_Middle") (bollinger_mavg (Frame.col df ("Close")))
      let df := Frame.setcol df ("Volume_SMA")
        (volume_sma (Frame.col df ("Close")) (Frame.col df ("Volume")))
      let df := Frame.setcol df ("Stoch_K")
        (stoch (Frame.col df ("High")) (Frame.col df ("Low")) (Frame.col df ("Close")))
      let df := Frame.setcol df ("Stoch_D")
        (stoch_signal (Frame.col df ("High")) (Frame.col df ("Low")) (Frame.col df ("Close")))
      some df

/-! ### `generate_signals` (lines 97-156) -/

/-- `series.iloc[-1]`: the latest entry (`none` both for a NaN entry and
for the empty series, on which Python would raise; `generate_signals` is
only reached with non-empty data). -/
def ilocLast (c : Col) : Option ℚ := c.reverse.headD none

/-- `series.iloc[-2]`: the previous entry.  On a one-row series Python
would raise, but in `generate_signals` this access sits behind a
conjunction whose first operand is a comparison against a NaN indicator
value (false) whenever the series is that short, so it is never
evaluated there; `none` is observationally equivalent. -/
def ilocPrev (c : Col) : Option ℚ := (c.reverse.drop 1).headD none

/-- The crossover rule shape shared by lines 104-112 (SMA20 against
SMA50) and lines 114-122 (MACD column against MACD_Signal column). -/
def crossoverSignal (fast slow : Col) : Signal :=
  if ogt (ilocLast fast) (ilocLast slow) && ole (ilocPrev fast) (ilocPrev slow) then
    Signal.BUY
  else if olt (ilocLast fast) (ilocLast slow) && oge (ilocPrev fast) (ilocPrev slow) then
    Signal.SELL
  else Signal.HOLD

/-- The RSI rule (lines 124-131). -/
def rsiSignal (rsiCol : Col) : Signal :=
  if olt (ilocLast rsiCol) (some 30) then Signal.BUY
  else if ogt (ilocLast rsiCol) (some 70) then Signal.SELL
  else Signal.HOLD

/-- The Bollinger-band rule (lines 133-143). -/
def bollingerSignal (close bbUpper bbLower : Col) : Signal :=
  if ole (ilocLast close) (ilocLast bbLower) then Signal.BUY
  else if oge (ilocLast close) (ilocLast bbUpper) then Signal.SELL
  else Signal.HOLD

/-- The stochastic rule (lines 145-154). -/
def stochasticSignal (k d : Col) : Signal :=
  if olt (ilocLast k) (some 20) && olt (ilocLast d) (some 20) then Signal.BUY
  else if ogt (ilocLast k) (some 80) && ogt (ilocLast d) (some 80) then Signal.SELL
  else Signal.HOLD

/-- `generate_signals(data)` on the indicator-augmented frame: `None` for
missing or empty data, else the five named rule signals. -/
def generate_signals (data : Option Frame) : Option (List (String × Signal)) :=
  match data with
  | none => none
  | some data =>
    if Frame.nrows data = 0 then none
    else
      some
        [(("MA_Crossover"),
            crossoverSignal (Frame.col data ("SMA_20")) (Frame.col data ("SMA_50"))),
         (("MACD"),
            crossoverSignal (Frame.col data ("MACD")) (Frame.col data ("MACD_Signal"))),
         (("RSI"), rsiSignal (Frame.col data ("RSI"))),
         (("Bollinger_Bands"),
            bollingerSignal (Frame.col data ("Close")) (Frame.col data ("BB_Upper"))
              (Frame.col data ("BB_Lower"))),
         (("Stochastic"),
            stochasticSignal (Frame.col data ("Stoch_K")) (Frame.col data ("Stoch_D")))]

/-! ### `analyze_stock` (lines 181-217) -/

/-- Outcome of a Python call: a normal value, a returned error dict, or
an unhandled exception. -/
inductive PyOutcome (α : Type) where
  | ok (a : α)
  | errDict (msg : String)
  | raised
deriving DecidableEq

/-- The fields assembled at lines 202-215 (the fetch timestamp and the
symbol echo carry no logic and are omitted; the display rounding
`round(x, n)` is not modelled, no claim concerns the rounded values). -/
structure AnalysisResult where
  current_price : ℚ
  price_change : ℚ
  price_change_pct : Option ℚ
  volume : Option ℚ
  signals : Option (List (String × Signal))
  signal_strength : ℚ
  recommendation : String
  volatility : Option VolatilityMetrics
  risk_metrics : Option RiskMetrics
  data_points : ℕ
deriving DecidableEq

/-- `get_stock_data` (lines 18-27), modelled on the series the external
provider returned (`none` for a fetch failure; the two provider-failure
messages are collapsed into one). -/
def get_stock_data (fetched : Option Frame) : Option Frame × Option String :=
  match fetched with
  | none => (none, some ("No data found"))
  | some data =>
    if Frame.nrows data = 0 then (none, some ("No data found"))
    else (some data, none)

/-- The values of the signal dict as passed to
`calculate_signal_strength` (`None` is falsy in Python, like the empty
dict). -/
def signalValues : Option (List (String × Signal)) → List Signal
  | none => []
  | some l => l.map Prod.snd

/-- `series.iloc[-(k+1)]` on a raw float column: `none` models the
IndexError raised for a series shorter than `k+1`. -/
def ilocNeg (xs : List ℚ) (k : ℕ) : Option ℚ := xs.reverse.get? k

/-- The closing prices of a provider frame (provider columns carry no
NaN, so this is the plain list of closes). -/
def closesOf (f : Frame) : List ℚ := dropna (Frame.col f ("Close"))

/-- `analyze_stock` (lines 181-217) on the series the provider returned:
the error dict when the provider failed or the series is empty, an
unhandled IndexError (`raised`) when the series has fewer than two rows
(`data.Close.iloc[-2]` in the price-change computation, line 199), else
the assembled result. -/
def analyze_stock (sq : ℚ → ℚ) (fetched : Option Frame) : PyOutcome AnalysisResult :=
  match get_stock_data fetched with
  | (_, some err) => PyOutcome.errDict err
  | (none, none) => PyOutcome.raised
  | (some data, none) =>
    let data_with_indicators := calculate_technical_indicators sq (some data)
    let volatility := calculate_volatility sq (closesOf data)
    let risk_metrics := calculate_risk_metrics sq (closesOf data)
    let signals := generate_signals data_with_indicators
    let sr := calculate_signal_strength (signalValues signals)
    match ilocNeg (closesOf data) 0, ilocNeg (closesOf data) 1 with
    | some cp, some prev =>
      PyOutcome.ok
        { current_price := cp
          price_change := cp - prev
          price_change_pct := (odiv (some (cp - prev)) (some prev)).map fun r => r * 100
          volume := ilocLast (Frame.col data ("Volume"))
          signals := signals
          signal_strength := sr.1
          recommendation := sr.2
          volatility := volatility
          risk_metrics := risk_metrics
          data_points := Frame.nrows data }
    | _, _ => PyOutcome.raised

/-- The one-row provider frame with price 100. -/
def frame1 : Frame := mkFrame [100] [100] [100] [100] [1000]

/-- The empty provider frame. -/
def frame0 : Frame := mkFrame [] [] [] [] []

/-- C2, against the code: on a one-row series `analyze_stock` raises an
unhandled IndexError (modelled `raised`) at the `iloc[-2]` price-change
access, after the indicator computation has run, instead of returning
the error value the claim requires; only a failed fetch or an empty
series produce the error dict. -/
theorem C2_length_one_series_raises :
    analyze_stock (fun q => q) (some frame1) = PyOutcome.raised
  ∧ analyze_stock (fun q => q) (some frame0) = PyOutcome.errDict ("No data found")
  ∧ analyze_stock (fun q => q) none = PyOutcome.errDict ("No data found") :=
  ⟨rfl, rfl, rfl⟩

/-! ### Frame aliasing: the `df = data.copy()` at line 34 -/

/-- A heap of DataFrame objects; Python variables are references into
it. -/
abbrev Heap := List Frame

/-- `ref[name] = col`: in-place column assignment on the object a
reference points to. -/
def Heap.setcolAt (h : Heap) (r : ℕ) (n : String) (c : Col) : Heap :=
  h.set r (Frame.setcol (h.getD r []) n c)

/-- `calculate_technical_indicators` as a heap transformer:
`df = data.copy()` allocates a fresh object (reference `h.length`)
holding the same value, and every column assignment of lines 37-59
mutates that fresh object in place; returns the new heap and the
reference to the result (`none` when the function returns early on empty
data).  The Open/High/Low/Close/Volume columns are never reassigned, so
reading them from the copy once up front yields the same series the
source reads at each line. -/
def calcTI_heap (sq : ℚ → ℚ) (h : Heap) (dataRef : ℕ) : Heap × Option ℕ :=
  let data := h.getD dataRef []
  if Frame.nrows data = 0 then (h, none)
  else
    let dfRef := h.length
    let h1 := h ++ [data]
    let close := Frame.col data ("Close")
    let high := Frame.col data ("High")
    let low := Frame.col data ("Low")
    let volume := Frame.col data ("Volume")
    let h2 := Heap.setcolAt h1 dfRef ("SMA_20") (sma_indicator 20 close)
    let h3 := Heap.setcolAt h2 dfRef ("SMA_50") (sma_indicator 50 close)
    let h4 := Heap.setcolAt h3 dfRef ("EMA_12") (ema_indicator 12 close)
    let h5 := Heap.setcolAt h4 dfRef ("EMA_26") (ema_indicator 26 close)
    let h6 := Heap.setcolAt h5 dfRef ("MACD") (macd_diff close)
    let h7 := Heap.setcolAt h6 dfRef ("MACD_Signal") (macd_signal close)
    let h8 := Heap.setcolAt h7 dfRef ("RSI") (rsi 14 close)
    let h9 := Heap.setcolAt h8 dfRef ("BB_Upper") (bollinger_hband sq close)
    let h10 := Heap.setcolAt h9 dfRef ("BB_Lower") (bollinger_lband sq close)
    let h11 := Heap.setcolAt h10 dfRef ("BB_Middle") (bollinger_mavg close)
    let h12 := Heap.setcolAt h11 dfRef ("Volume_SMA") (volume_sma close volume)
    let h13 := Heap.setcolAt h12 dfRef ("Stoch_K") (stoch high low close)
    let h14 := Heap.setcolAt h13 dfRef ("Stoch_D") (stoch_signal high low close)
    (h14, some dfRef)

theorem getD_set_ne (l : Heap) (i j : ℕ) (a : Frame) (hij : i ≠ j) :
    (l.set i a).getD j [] = l.getD j [] := by
  induction l generalizing i j with
  | nil => rfl
  | cons x xs ih =>
    cases i with
    | zero =>
      cases j with
      | zero => exact absurd rfl hij
      | succ j => rfl
    | succ i =>
      cases j with
      | zero => rfl
      | succ j => simpa [List.set, List.getD] using ih i j (by omega)

theorem getD_append_left (l l2 : Heap) (j : ℕ) (hj : j < l.length) :
    (l ++ l2).getD j [] = l.getD j [] := by
  induction l generalizing j with
  | nil => simp at hj
  | cons x xs ih =>
    cases j with
    | zero => rfl
    | succ j =>
      have := ih j (by simpa using hj)
      simpa [List.getD] using this

theorem length_setcolAt (h : Heap) (r : ℕ) (n : String) (c : Col) :
    (Heap.setcolAt h r n c).length = h.length := by
  simp [Heap.setcolAt]

/-- C10: the indicator computation operates on a copy: the caller's frame
(every column, hence every bar) is unchanged by the call. -/
theorem C10_input_frame_unchanged (sq : ℚ → ℚ) (h : Heap) (r : ℕ) (hr : r < h.length) :
    ((calcTI_heap sq h r).1).getD r [] = h.getD r [] := by
  by_cases hc : Frame.nrows (h.getD r []) = 0
  · simp only [calcTI_heap]
    rw [if_pos hc]
  · simp only [calcTI_heap, hc, if_false]
    have hne : h.length ≠ r := by omega
    simp only [Heap.setcolAt, length_setcolAt, List.length_set, List.length_append]
    rw [getD_set_ne _ _ _ _ hne, getD_set_ne _ _ _ _ hne, getD_set_ne _ _ _ _ hne,
      getD_set_ne _ _ _ _ hne, getD_set_ne _ _ _ _ hne, getD_set_ne _ _ _ _ hne,
      getD_set_ne _ _ _ _ hne, getD_set_ne _ _ _ _ hne, getD_set_ne _ _ _ _ hne,
      getD_set_ne _ _ _ _ hne, getD_set_ne _ _ _ _ hne, getD_set_ne _ _ _ _ hne,
      getD_set_ne _ _ _ _ hne, getD_append_left _ _ _ hr]

theorem C10_input_frame_unchanged_witness :
    ((calcTI_heap (fun q => q) [frame1] 0).1).getD 0 [] = [frame1].getD 0 [] :=
  C10_input_frame_unchanged (fun q => q) [frame1] 0 (by norm_num)

/-! ### Rules on undefined inputs, and the flat 10-bar example -/

@[simp] theorem olt_none_left (y : Option ℚ) : olt none y = false := by
  cases y <;> rfl

@[simp] theorem olt_none_right (x : Option ℚ) : olt x none = false := by
  cases x <;> rfl

@[simp] theorem ole_none_left (y : Option ℚ) : ole none y = false := by
  cases y <;> rfl

@[simp] theorem ole_none_right (x : Option ℚ) : ole x none = false := by
  cases x <;> rfl

theorem crossover_hold_of_undefined (fast slow : Col)
    (h : ilocLast fast = none ∨ ilocLast slow = none
         ∨ ilocPrev fast = none ∨ ilocPrev slow = none) :
    crossoverSignal fast slow = Signal.HOLD := by
  rcases h with h | h | h | h <;> simp [crossoverSignal, ogt, oge, h]

theorem rsi_hold_of_undefined (c : Col) (h : ilocLast c = none) :
    rsiSignal c = Signal.HOLD := by
  simp [rsiSignal, ogt, h]

theorem bollinger_hold_of_undefined (close bbUpper bbLower : Col)
    (hU : ilocLast bbUpper = none) (hL : ilocLast bbLower = none) :
    bollingerSignal close bbUpper bbLower = Signal.HOLD := by
  simp [bollingerSignal, oge, hU, hL]

theorem stochastic_hold_of_undefined (k d : Col)
    (h : ilocLast k = none ∨ ilocLast d = none) :
    stochasticSignal k d = Signal.HOLD := by
  rcases h with h | h <;> simp [stochasticSignal, ogt, h]

theorem windowAt_length_le (w : ℕ) (xs : Col) (i : ℕ) :
    (windowAt w xs i).length ≤ xs.length := by
  unfold windowAt
  calc (((xs.take (i + 1)).drop (i + 1 - w)).filterMap id).length
      ≤ ((xs.take (i + 1)).drop (i + 1 - w)).length := List.length_filterMap_le _ _
    _ ≤ xs.length := by
        rw [List.length_drop, List.length_take]
        omega

/-- Every rolling statistic on a series shorter than its `min_periods` is
entirely undefined. -/
theorem rollingApply_short (w minp : ℕ) (f : List ℚ → ℚ) (xs : Col)
    (h : xs.length < minp) :
    rollingApply w minp f xs = List.replicate xs.length none := by
  unfold rollingApply
  rw [List.eq_replicate_iff]
  refine ⟨by simp, fun b hb => ?_⟩
  obtain ⟨i, _, rfl⟩ := List.mem_map.mp hb
  have := windowAt_length_le w xs i
  rw [if_neg (by omega)]

theorem filterMap_id_eq_nil (l : Col) (hall : ∀ x ∈ l, x = none) :
    l.filterMap id = [] := by
  induction l with
  | nil => rfl
  | cons x t ih =>
    have hx : x = none := hall x (by simp)
    subst hx
    simpa using ih fun y hy => hall y (by simp [hy])

/-- A rolling statistic over an entirely undefined series is entirely
undefined (for a positive `min_periods`). -/
theorem rollingApply_allnone (w minp : ℕ) (f : List ℚ → ℚ) (xs : Col)
    (hall : ∀ x ∈ xs, x = none) (hm : 1 ≤ minp) :
    rollingApply w minp f xs = List.replicate xs.length none := by
  unfold rollingApply
  rw [List.eq_replicate_iff]
  refine ⟨by simp, fun b hb => ?_⟩
  obtain ⟨i, _, rfl⟩ := List.mem_map.mp hb
  have hw : windowAt w xs i = [] := by
    unfold windowAt
    refine filterMap_id_eq_nil _ fun x hx => ?_
    exact hall x (List.take_subset _ _ (List.drop_subset _ _ hx))
  rw [hw, if_neg (by simpa using by omega)]

theorem ewmStep_nobs_le (a : ℚ) (s : EwmState) (x : Option ℚ) :
    (ewmStep a s x).nobs ≤ s.nobs + 1 := by
  cases x with
  | none => simp [ewmStep]
  | some v => cases hm : s.mean <;> simp [ewmStep, hm]

/-- The exponentially-weighted mean of a series with fewer observations
than `min_periods` is entirely undefined. -/
theorem ewmGo_short (a : ℚ) (minp : ℕ) (s : EwmState) (xs : Col)
    (h : s.nobs + xs.length < minp) :
    ewmGo a minp s xs = List.replicate xs.length none := by
  induction xs generalizing s with
  | nil => rfl
  | cons x t ih =>
    have h1 := ewmStep_nobs_le a s x
    rw [ewmGo, if_neg (by simp at h; omega)]
    simp only [List.length_cons, List.replicate_succ, List.cons.injEq]
    exact ⟨trivial, ih _ (by simp at h; omega)⟩

theorem ewmMean_short (a : ℚ) (minp : ℕ) (xs : Col) (h : xs.length < minp) :
    ewmMean a minp xs = List.replicate xs.length none :=
  ewmGo_short a minp ewmInit xs (by simpa [ewmInit] using h)

theorem ewmStep_none_nobs (a : ℚ) (s : EwmState) : (ewmStep a s none).nobs = s.nobs := by
  simp [ewmStep]

/-- The exponentially-weighted mean of an entirely undefined series is
entirely undefined (for a positive `min_periods`). -/
theorem ewmGo_allnone (a : ℚ) (minp : ℕ) (s : EwmState) (xs : Col)
    (hall : ∀ x ∈ xs, x = none) (h : s.nobs < minp) :
    ewmGo a minp s xs = List.replicate xs.length none := by
  induction xs generalizing s with
  | nil => rfl
  | cons x t ih =>
    have hx : x = none := hall x (by simp)
    subst hx
    have h1 := ewmStep_none_nobs a s
    rw [ewmGo, if_neg (by omega)]
    simp only [List.length_cons, List.replicate_succ, List.cons.injEq]
    exact ⟨trivial, ih _ (fun y hy => hall y (List.mem_cons_of_mem _ hy)) (by omega)⟩

theorem ewmMean_allnone (a : ℚ) (minp : ℕ) (xs : Col)
    (hall : ∀ x ∈ xs, x = none) (h : 0 < minp) :
    ewmMean a minp xs = List.replicate xs.length none :=
  ewmGo_allnone a minp ewmInit xs hall (by simpa [ewmInit] using h)

theorem zipWith_replicate {α β γ : Type} (f : α → β → γ) (a : α) (b : β) (n m : ℕ) :
    List.zipWith f (List.replicate n a) (List.replicate m b)
      = List.replicate (min n m) (f a b) := by
  induction n generalizing m with
  | zero => simp
  | succ n ih =>
    cases m with
    | zero => simp
    | succ m =>
      simp only [List.replicate_succ, List.zipWith_cons_cons, ih,
        Nat.succ_min_succ]

/-- The flat 10-bar provider frame (constant price 100, volume 1000). -/
def flat10 : List ℚ := List.replicate 10 100

def flatV10 : List ℚ := List.replicate 10 1000

def flatFrame10 : Frame := mkFrame flat10 flat10 flat10 flat10 flatV10

/-- Its Close/High/Low column. -/
def flatC : Col := List.replicate 10 (some (100 : ℚ))

theorem flatC_length : flatC.length = 10 := by simp [flatC]

theorem flatC_allsome : flatC = (List.replicate 10 (100 : ℚ)).map some := by
  simp [flatC]

theorem sma_indicator_flat (w : ℕ) (hw : 10 < w) :
    sma_indicator w flatC = List.replicate 10 none := by
  unfold sma_indicator rollingMean
  rw [rollingApply_short _ _ _ _ (by rw [flatC_length]; omega), flatC_length]

theorem ema_indicator_flat (w : ℕ) (hw : 10 < w) :
    ema_indicator w flatC = List.replicate 10 none := by
  unfold ema_indicator
  rw [ewmMean_short _ _ _ (by rw [flatC_length]; omega), flatC_length]

theorem macd_line_flat : macd_line flatC = List.replicate 10 none := by
  unfold macd_line
  rw [ema_indicator_flat 12 (by omega), ema_indicator_flat 26 (by omega),
    zipWith_replicate]
  rfl

theorem macd_signal_flat : macd_signal flatC = List.replicate 10 none := by
  unfold macd_signal
  rw [macd_line_flat,
    ewmMean_allnone _ _ _ (fun x hx => List.eq_of_mem_replicate hx) (by omega)]
  simp

theorem macd_diff_flat : macd_diff flatC = List.replicate 10 none := by
  unfold macd_diff
  rw [macd_line_flat, macd_signal_flat, zipWith_replicate]
  rfl

theorem diff1_length (xs : Col) : (diff1 xs).length = xs.length := by
  cases xs with
  | nil => rfl
  | cons x rest => simp [diff1]

theorem whereKeep_length (cond : Option ℚ → Bool) (xs : Col) :
    (whereKeep cond xs).length = xs.length := by
  simp [whereKeep]

theorem rsi_flat : rsi 14 flatC = List.replicate 10 none := by
  have h1 : (whereKeep (fun x => olt (some 0) x) (diff1 flatC)).length = 10 := by
    rw [whereKeep_length, diff1_length, flatC_length]
  have h2 : ((whereKeep (fun x => olt x (some 0)) (diff1 flatC)).map
      fun x => x.map Neg.neg).length = 10 := by
    rw [List.length_map, whereKeep_length, diff1_length, flatC_length]
  simp only [rsi]
  rw [ewmMean_short _ _ _ (by rw [h1]; omega),
    ewmMean_short _ _ _ (by rw [h2]; omega), h1, h2, zipWith_replicate]
  rfl

theorem bollinger_hband_flat (sq : ℚ → ℚ) :
    bollinger_hband sq flatC = List.replicate 10 none := by
  unfold bollinger_hband bollinger_mavg rollingMean rollingStd0
  rw [rollingApply_short _ _ _ _ (by rw [flatC_length]; omega),
    rollingApply_short _ _ _ _ (by rw [flatC_length]; omega),
    flatC_length, zipWith_replicate]
  rfl

theorem bollinger_lband_flat (sq : ℚ → ℚ) :
    bollinger_lband sq flatC = List.replicate 10 none := by
  unfold bollinger_lband bollinger_mavg rollingMean rollingStd0
  rw [rollingApply_short _ _ _ _ (by rw [flatC_length]; omega),
    rollingApply_short _ _ _ _ (by rw [flatC_length]; omega),
    flatC_length, zipWith_replicate]
  rfl

theorem bollinger_mavg_flat : bollinger_mavg flatC = List.replicate 10 none := by
  unfold bollinger_mavg rollingMean
  rw [rollingApply_short _ _ _ _ (by rw [flatC_length]; omega), flatC_length]

theorem zip_of_replicate {α β : Type} (a : α) (b : β) (n m : ℕ) :
    (List.replicate n a).zip (List.replicate m b) = List.replicate (min n m) (a, b) := by
  induction n generalizing m with
  | zero => simp
  | succ n ih =>
    cases m with
    | zero => simp
    | succ m =>
      simp only [List.replicate_succ, List.zip_cons_cons, ih, Nat.succ_min_succ]

theorem stoch_flat : stoch flatC flatC flatC = List.replicate 10 none := by
  simp only [stoch, rollingMin, rollingMax]
  rw [rollingApply_short _ _ _ _ (by rw [flatC_length]; omega),
    rollingApply_short _ _ _ _ (by rw [flatC_length]; omega), flatC_length,
    zip_of_replicate]
  rw [show flatC = List.replicate 10 (some (100 : ℚ)) from rfl, zipWith_replicate]
  rfl

theorem stoch_signal_flat : stoch_signal flatC flatC flatC = List.replicate 10 none := by
  unfold stoch_signal rollingMean
  rw [stoch_flat,
    rollingApply_allnone _ _ _ _ (fun x hx => List.eq_of_mem_replicate hx) (by omega)]
  simp

theorem volume_sma_flat : volume_sma flatC (List.replicate 10 (some (1000 : ℚ)))
    = List.replicate 10 none := by
  unfold volume_sma rollingMean
  rw [rollingApply_short _ _ _ _ (by simp)]
  simp

theorem Frame.col_setcol_self (f : Frame) (n : String) (c : Col) :
    Frame.col (Frame.setcol f n c) n = c := by
  induction f with
  | nil => simp [Frame.setcol, Frame.col, List.lookup]
  | cons kv rest ih =>
    obtain ⟨k, v⟩ := kv
    by_cases hk : k = n
    · simp [Frame.setcol, hk, Frame.col, List.lookup]
    · have hnk : (n == k) = false := by
        simp [Ne.symm hk]
      simp only [Frame.setcol, hk, if_false]
      simpa [Frame.col, List.lookup, hnk] using ih

theorem Frame.col_setcol_ne (f : Frame) (n m : String) (c : Col) (h : m ≠ n) :
    Frame.col (Frame.setcol f n c) m = Frame.col f m := by
  have hmn : (m == n) = false := by simp [h]
  induction f with
  | nil => simp [Frame.setcol, Frame.col, List.lookup, hmn]
  | cons kv rest ih =>
    obtain ⟨k, v⟩ := kv
    by_cases hk : k = n
    · subst hk
      simp [Frame.setcol, Frame.col, List.lookup, hmn]
    · simp only [Frame.setcol, hk, if_false]
      by_cases hmk : m = k
      · subst hmk
        simp [Frame.col, List.lookup]
      · have h1 : (m == k) = false := by simp [hmk]
        simpa [Frame.col, List.lookup, h1] using ih

/-- The columns of the frame `calculate_technical_indicators` returns:
the provider columns are untouched and each indicator column holds the
`ta` series the corresponding source line assigns. -/
theorem calcTI_cols (sq : ℚ → ℚ) (data : Frame) (hne : ¬ Frame.nrows data = 0) :
    ∃ df, calculate_technical_indicators sq (some data) = some df
      ∧ Frame.col df ("Close") = Frame.col data ("Close")
      ∧ Frame.col df ("SMA_20") = sma_indicator 20 (Frame.col data ("Close"))
      ∧ Frame.col df ("SMA_50") = sma_indicator 50 (Frame.col data ("Close"))
      ∧ Frame.col df ("EMA_12") = ema_indicator 12 (Frame.col data ("Close"))
      ∧ Frame.col df ("EMA_26") = ema_indicator 26 (Frame.col data ("Close"))
      ∧ Frame.col df ("MACD") = macd_diff (Frame.col data ("Close"))
      ∧ Frame.col df ("MACD_Signal") = macd_signal (Frame.col data ("Close"))
      ∧ Frame.col df ("RSI") = rsi 14 (Frame.col data ("Close"))
      ∧ Frame.col df ("BB_Upper") = bollinger_hband sq (Frame.col data ("Close"))
      ∧ Frame.col df ("BB_Lower") = bollinger_lband sq (Frame.col data ("Close"))
      ∧ Frame.col df ("Stoch_K") = stoch (Frame.col data ("High")) (Frame.col data ("Low"))
          (Frame.col data ("Close"))
      ∧ Frame.col df ("Stoch_D") = stoch_signal (Frame.col data ("High"))
          (Frame.col data ("Low")) (Frame.col data ("Close")) := by
  simp only [calculate_technical_indicators, hne, if_false]
  refine ⟨_, rfl, ?_⟩
  simp only [Frame.col_setcol_self,
    Frame.col_setcol_ne _ _ _ _ (by decide : ("Close" : String) ≠ "SMA_20"),
    Frame.col_setcol_ne _ _ _ _ (by decide : ("Close" : String) ≠ "SMA_50"),
    Frame.col_setcol_ne _ _ _ _ (by decide : ("Close" : String) ≠ "EMA_12"),
    Frame.col_setcol_ne _ _ _ _ (by decide : ("Close" : String) ≠ "EMA_26"),
    Frame.col_setcol_ne _ _ _ _ (by decide : ("Close" : String) ≠ "MACD"),
    Frame.col_setcol_ne _ _ _ _ (by decide : ("Close" : String) ≠ "MACD_Signal"),
    Frame.col_setcol_ne _ _ _ _ (by decide : ("Close" : String) ≠ "RSI"),
    Frame.col_setcol_ne _ _ _ _ (by decide : ("Close" : String) ≠ "BB_Upper"),
    Frame.col_setcol_ne _ _ _ _ (by decide : ("Close" : String) ≠ "BB_Lower"),
    Frame.col_setcol_ne _ _ _ _ (by decide : ("Close" : String) ≠ "BB_Middle"),
    Frame.col_setcol_ne _ _ _ _ (by decide : ("Close" : String) ≠ "Volume_SMA"),
    Frame.col_setcol_ne _ _ _ _ (by decide : ("Close" : String) ≠ "Stoch_K"),
    Frame.col_setcol_ne _ _ _ _ (by decide : ("Close" : String) ≠ "Stoch_D"),
    Frame.col_setcol_ne _ _ _ _ (by decide : ("High" : String) ≠ "SMA_20"),
    Frame.col_setcol_ne _ _ _ _ (by decide : ("High" : String) ≠ "SMA_50"),
    Frame.col_setcol_ne _ _ _ _ (by decide : ("High" : String) ≠ "EMA_12"),
    Frame.col_setcol_ne _ _ _ _ (by decide : ("High" : String) ≠ "EMA_26"),
    Frame.col_setcol_ne _ _ _ _ (by decide : ("High" : String) ≠ "MACD"),
    Frame.col_setcol_ne _ _ _ _ (by decide : ("High" : String) ≠ "MACD_Signal"),
    Frame.col_setcol_ne _ _ _ _ (by decide : ("High" : String) ≠ "RSI"),
    Frame.col_setcol_ne _ _ _ _ (by decide : ("High" : String) ≠ "BB_Upper"),
    Frame.col_setcol_ne _ _ _ _ (by decide : ("High" : String) ≠ "BB_Lower"),
    Frame.col_setcol_ne _ _ _ _ (by decide : ("High" : String) ≠ "BB_Middle"),
    Frame.col_setcol_ne _ _ _ _ (by decide : ("High" : String) ≠ "Volume_SMA"),
    Frame.col_setcol_ne _ _ _ _ (by decide : ("Low" : String) ≠ "SMA_20"),
    Frame.col_setcol_ne _ _ _ _ (by decide : ("Low" : String) ≠ "SMA_50"),
    Frame.col_setcol_ne _ _ _ _ (by decide : ("Low" : String) ≠ "EMA_12"),
    Frame.col_setcol_ne _ _ _ _ (by decide : ("Low" : String) ≠ "EMA_26"),
    Frame.col_setcol_ne _ _ _ _ (by decide : ("Low" : String) ≠ "MACD"),
    Frame.col_setcol_ne _ _ _ _ (by decide : ("Low" : String) ≠ "MACD_Signal"),
    Frame.col_setcol_ne _ _ _ _ (by decide : ("Low" : String) ≠ "RSI"),
    Frame.col_setcol_ne _ _ _ _ (by decide : ("Low" : String) ≠ "BB_Upper"),
    Frame.col_setcol_ne _ _ _ _ (by decide : ("Low" : String) ≠ "BB_Lower"),
    Frame.col_setcol_ne _ _ _ _ (by decide : ("Low" : String) ≠ "BB_Middle"),
    Frame.col_setcol_ne _ _ _ _ (by decide : ("Low" : String) ≠ "Volume_SMA"),
    Frame.col_setcol_ne _ _ _ _ (by decide : ("Volume" : String) ≠ "SMA_20"),
    Frame.col_setcol_ne _ _ _ _ (by decide : ("Volume" : String) ≠ "SMA_50"),
    Frame.col_setcol_ne _ _ _ _ (by decide : ("Volume" : String) ≠ "EMA_12"),
    Frame.col_setcol_ne _ _ _ _ (by decide : ("Volume" : String) ≠ "EMA_26"),
    Frame.col_setcol_ne _ _ _ _ (by decide : ("Volume" : String) ≠ "MACD"),
    Frame.col_setcol_ne _ _ _ _ (by decide : ("Volume" : String) ≠ "MACD_Signal"),
    Frame.col_setcol_ne _ _ _ _ (by decide : ("Volume" : String) ≠ "RSI"),
    Frame.col_setcol_ne _ _ _ _ (by decide : ("Volume" : String) ≠ "BB_Upper"),
    Frame.col_setcol_ne _ _ _ _ (by decide : ("Volume" : String) ≠ "BB_Lower"),
    Frame.col_setcol_ne _ _ _ _ (by decide : ("Volume" : String) ≠ "BB_Middle"),
    Frame.col_setcol_ne _ _ _ _ (by decide : ("SMA_20" : String) ≠ "SMA_50"),
    Frame.col_setcol_ne _ _ _ _ (by decide : ("SMA_20" : String) ≠ "EMA_12"),
    Frame.col_setcol_ne _ _ _ _ (by decide : ("SMA_20" : String) ≠ "EMA_26"),
    Frame.col_setcol_ne _ _ _ _ (by decide : ("SMA_20" : String) ≠ "MACD"),
    Frame.col_setcol_ne _ _ _ _ (by decide : ("SMA_20" : String) ≠ "MACD_Signal"),
    Frame.col_setcol_ne _ _ _ _ (by decide : ("SMA_20" : String) ≠ "RSI"),
    Frame.col_setcol_ne _ _ _ _ (by decide : ("SMA_20" : String) ≠ "BB_Upper"),
    Frame.col_setcol_ne _ _ _ _ (by decide : ("SMA_20" : String) ≠ "BB_Lower"),
    Frame.col_setcol_ne _ _ _ _ (by decide : ("SMA_20" : String) ≠ "BB_Middle"),
    Frame.col_setcol_ne _ _ _ _ (by decide : ("SMA_20" : String) ≠ "Volume_SMA"),
    Frame.col_setcol_ne _ _ _ _ (by decide : ("SMA_20" : String) ≠ "Stoch_K"),
    Frame.col_setcol_ne _ _ _ _ (by decide : ("SMA_20" : String) ≠ "Stoch_D"),
    Frame.col_setcol_ne _ _ _ _ (by decide : ("SMA_50" : String) ≠ "EMA_12"),
    Frame.col_setcol_ne _ _ _ _ (by decide : ("SMA_50" : String) ≠ "EMA_26"),
    Frame.col_setcol_ne _ _ _ _ (by decide : ("SMA_50" : String) ≠ "MACD"),
    Frame.col_setcol_ne _ _ _ _ (by decide : ("SMA_50" : String) ≠ "MACD_Signal"),
    Frame.col_setcol_ne _ _ _ _ (by decide : ("SMA_50" : String) ≠ "RSI"),
    Frame.col_setcol_ne _ _ _ _ (by decide : ("SMA_50" : String) ≠ "BB_Upper"),
    Frame.col_setcol_ne _ _ _ _ (by decide : ("SMA_50" : String) ≠ "BB_Lower"),
    Frame.col_setcol_ne _ _ _ _ (by decide : ("SMA_50" : String) ≠ "BB_Middle"),
    Frame.col_setcol_ne _ _ _ _ (by decide : ("SMA_50" : String) ≠ "Volume_SMA"),
    Frame.col_setcol_ne _ _ _ _ (by decide : ("SMA_50" : String) ≠ "Stoch_K"),
    Frame.col_setcol_ne _ _ _ _ (by decide : ("SMA_50" : String) ≠ "Stoch_D"),
    Frame.col_setcol_ne _ _ _ _ (by decide : ("EMA_12" : String) ≠ "EMA_26"),
    Frame.col_setcol_ne _ _ _ _ (by decide : ("EMA_12" : String) ≠ "MACD"),
    Frame.col_setcol_ne _ _ _ _ (by decide : ("EMA_12" : String) ≠ "MACD_Signal"),
    Frame.col_setcol_ne _ _ _ _ (by decide : ("EMA_12" : String) ≠ "RSI"),
    Frame.col_setcol_ne _ _ _ _ (by decide : ("EMA_12" : String) ≠ "BB_Upper"),
    Frame.col_setcol_ne _ _ _ _ (by decide : ("EMA_12" : String) ≠ "BB_Lower"),
    Frame.col_setcol_ne _ _ _ _ (by decide : ("EMA_12" : String) ≠ "BB_Middle"),
    Frame.col_setcol_ne _ _ _ _ (by decide : ("EMA_12" : String) ≠ "Volume_SMA"),
    Frame.col_setcol_ne _ _ _ _ (by decide : ("EMA_12" : String) ≠ "Stoch_K"),
    Frame.col_setcol_ne _ _ _ _ (by decide : ("EMA_12" : String) ≠ "Stoch_D"),
    Frame.col_setcol_ne _ _ _ _ (by decide : ("EMA_26" : String) ≠ "MACD"),
    Frame.col_setcol_ne _ _ _ _ (by decide : ("EMA_26" : String) ≠ "MACD_Signal"),
    Frame.col_setcol_ne _ _ _ _ (by decide : ("EMA_26" : String) ≠ "RSI"),
    Frame.col_setcol_ne _ _ _ _ (by decide : ("EMA_26" : String) ≠ "BB_Upper"),
    Frame.col_setcol_ne _ _ _ _ (by decide : ("EMA_26" : String) ≠ "BB_Lower"),
    Frame.col_setcol_ne _ _ _ _ (by decide : ("EMA_26" : String) ≠ "BB_Middle"),
    Frame.col_setcol_ne _ _ _ _ (by decide : ("EMA_26" : String) ≠ "Volume_SMA"),
    Frame.col_setcol_ne _ _ _ _ (by decide : ("EMA_26" : String) ≠ "Stoch_K"),
    Frame.col_setcol_ne _ _ _ _ (by decide : ("EMA_26" : String) ≠ "Stoch_D"),
    Frame.col_setcol_ne _ _ _ _ (by decide : ("MACD" : String) ≠ "MACD_Signal"),
    Frame.col_setcol_ne _ _ _ _ (by decide : ("MACD" : String) ≠ "RSI"),
    Frame.col_setcol_ne _ _ _ _ (by decide : ("MACD" : String) ≠ "BB_Upper"),
    Frame.col_setcol_ne _ _ _ _ (by decide : ("MACD" : String) ≠ "BB_Lower"),
    Frame.col_setcol_ne _ _ _ _ (by decide : ("MACD" : String) ≠ "BB_Middle"),
    Frame.col_setcol_ne _ _ _ _ (by decide : ("MACD" : String) ≠ "Volume_SMA"),
    Frame.col_setcol_ne _ _ _ _ (by decide : ("MACD" : String) ≠ "Stoch_K"),
    Frame.col_setcol_ne _ _ _ _ (by decide : ("MACD" : String) ≠ "Stoch_D"),
    Frame.col_setcol_ne _ _ _ _ (by decide : ("MACD_Signal" : String) ≠ "RSI"),
    Frame.col_setcol_ne _ _ _ _ (by decide : ("MACD_Signal" : String) ≠ "BB_Upper"),
    Frame.col_setcol_ne _ _ _ _ (by decide : ("MACD_Signal" : String) ≠ "BB_Lower"),
    Frame.col_setcol_ne _ _ _ _ (by decide : ("MACD_Signal" : String) ≠ "BB_Middle"),
    Frame.col_setcol_ne _ _ _ _ (by decide : ("MACD_Signal" : String) ≠ "Volume_SMA"),
    Frame.col_setcol_ne _ _ _ _ (by decide : ("MACD_Signal" : String) ≠ "Stoch_K"),
    Frame.col_setcol_ne _ _ _ _ (by decide : ("MACD_Signal" : String) ≠ "Stoch_D"),
    Frame.col_setcol_ne _ _ _ _ (by decide : ("RSI" : String) ≠ "BB_Upper"),
    Frame.col_setcol_ne _ _ _ _ (by decide : ("RSI" : String) ≠ "BB_Lower"),
    Frame.col_setcol_ne _ _ _ _ (by decide : ("RSI" : String) ≠ "BB_Middle"),
    Frame.col_setcol_ne _ _ _ _ (by decide : ("RSI" : String) ≠ "Volume_SMA"),
    Frame.col_setcol_ne _ _ _ _ (by decide : ("RSI" : String) ≠ "Stoch_K"),
    Frame.col_setcol_ne _ _ _ _ (by decide : ("RSI" : String) ≠ "Stoch_D"),
    Frame.col_setcol_ne _ _ _ _ (by decide : ("BB_Upper" : String) ≠ "BB_Lower"),
    Frame.col_setcol_ne _ _ _ _ (by decide : ("BB_Upper" : String) ≠ "BB_Middle"),
    Frame.col_setcol_ne _ _ _ _ (by decide : ("BB_Upper" : String) ≠ "Volume_SMA"),
    Frame.col_setcol_ne _ _ _ _ (by decide : ("BB_Upper" : String) ≠ "Stoch_K"),
    Frame.col_setcol_ne _ _ _ _ (by decide : ("BB_Upper" : String) ≠ "Stoch_D"),
    Frame.col_setcol_ne _ _ _ _ (by decide : ("BB_Lower" : String) ≠ "BB_Middle"),
    Frame.col_setcol_ne _ _ _ _ (by decide : ("BB_Lower" : String) ≠ "Volume_SMA"),
    Frame.col_setcol_ne _ _ _ _ (by decide : ("BB_Lower" : String) ≠ "Stoch_K"),
    Frame.col_setcol_ne _ _ _ _ (by decide : ("BB_Lower" : String) ≠ "Stoch_D"),
    Frame.col_setcol_ne _ _ _ _ (by decide : ("High" : String) ≠ "Stoch_K"),
    Frame.col_setcol_ne _ _ _ _ (by decide : ("Low" : String) ≠ "Stoch_K"),
    Frame.col_setcol_ne _ _ _ _ (by decide : ("Stoch_K" : String) ≠ "Stoch_D")]
  exact ⟨trivial, trivial, trivial, trivial, trivial, trivial, trivial, trivial,
    trivial, trivial, trivial, trivial⟩

theorem ilocLast_replicate_none (n : ℕ) : ilocLast (List.replicate n none) = none := by
  unfold ilocLast
  rw [List.reverse_replicate]
  cases n with
  | zero => rfl
  | succ n => rfl

theorem flatFrame10_close : Frame.col flatFrame10 ("Close") = flatC := by
  rfl

theorem flatFrame10_high : Frame.col flatFrame10 ("High") = flatC := by
  rfl

theorem flatFrame10_low : Frame.col flatFrame10 ("Low") = flatC := by
  rfl

theorem flatFrame10_nrows : Frame.nrows flatFrame10 = 10 := by
  rfl

/-- On the flat 10-bar frame every indicator is undefined and all five
rules yield HOLD. -/
theorem generate_signals_flat (sq : ℚ → ℚ) :
    generate_signals (calculate_technical_indicators sq (some flatFrame10))
      = some [(("MA_Crossover"), Signal.HOLD), (("MACD"), Signal.HOLD),
              (("RSI"), Signal.HOLD), (("Bollinger_Bands"), Signal.HOLD),
              (("Stochastic"), Signal.HOLD)] := by
  obtain ⟨df, hdf, hClose, hS20, hS50, _, _, hMACD, hSig, hRSI, hBBU, hBBL, hK, hD⟩ :=
    calcTI_cols sq flatFrame10 (by rw [flatFrame10_nrows]; omega)
  rw [hdf]
  have hnrows : ¬ Frame.nrows df = 0 := by
    unfold Frame.nrows
    rw [hClose, flatFrame10_close, flatC_length]
    omega
  simp only [generate_signals, hnrows, if_false]
  rw [flatFrame10_close] at hClose hS20 hS50 hMACD hSig hRSI hBBU hBBL
  rw [flatFrame10_close, flatFrame10_high, flatFrame10_low] at hK hD
  rw [hS20, hS50, hMACD, hSig, hRSI, hBBU, hBBL, hK, hD,
    sma_indicator_flat 20 (by omega), sma_indicator_flat 50 (by omega),
    macd_diff_flat, macd_signal_flat, rsi_flat, bollinger_hband_flat,
    bollinger_lband_flat, stoch_flat, stoch_signal_flat]
  rw [crossover_hold_of_undefined _ _ (Or.inl (ilocLast_replicate_none 10)),
    rsi_hold_of_undefined _ (ilocLast_replicate_none 10),
    bollinger_hold_of_undefined _ _ _ (ilocLast_replicate_none 10)
      (ilocLast_replicate_none 10),
    stochastic_hold_of_undefined _ _ (Or.inl (ilocLast_replicate_none 10))]

/-- C7: a rule whose indicator inputs at the latest or previous position
are undefined resolves to HOLD rather than failing, for each of the five
rules; and on the flat 10-bar series (shorter than every window) all five
rules are HOLD and the aggregate is recommendation HOLD with strength
50. -/
theorem C7_undefined_inputs_give_hold :
    (∀ fast slow : Col,
        (ilocLast fast = none ∨ ilocLast slow = none
          ∨ ilocPrev fast = none ∨ ilocPrev slow = none) →
        crossoverSignal fast slow = Signal.HOLD)
  ∧ (∀ c : Col, ilocLast c = none → rsiSignal c = Signal.HOLD)
  ∧ (∀ close bbUpper bbLower : Col,
        ilocLast bbUpper = none → ilocLast bbLower = none →
        bollingerSignal close bbUpper bbLower = Signal.HOLD)
  ∧ (∀ k d : Col, (ilocLast k = none ∨ ilocLast d = none) →
        stochasticSignal k d = Signal.HOLD)
  ∧ (∀ sq : ℚ → ℚ,
        generate_signals (calculate_technical_indicators sq (some flatFrame10))
          = some [(("MA_Crossover"), Signal.HOLD), (("MACD"), Signal.HOLD),
                  (("RSI"), Signal.HOLD), (("Bollinger_Bands"), Signal.HOLD),
                  (("Stochastic"), Signal.HOLD)]
        ∧ calculate_signal_strength (signalValues (generate_signals
            (calculate_technical_indicators sq (some flatFrame10)))) = (50, ("HOLD"))) := by
  refine ⟨crossover_hold_of_undefined, rsi_hold_of_undefined,
    bollinger_hold_of_undefined, stochastic_hold_of_undefined, fun sq => ?_⟩
  refine ⟨generate_signals_flat sq, ?_⟩
  rw [generate_signals_flat sq]
  rfl

/-- The 26-bar constant provider frame. -/
def flat26 : List ℚ := List.replicate 26 100

def flatFrame26 : Frame := mkFrame flat26 flat26 flat26 flat26 flat26

/-- C1, against the code: line 43 stores `ta.trend.macd_diff` — the MACD
histogram, MACD line minus signal line — in the MACD column, not the MACD
line EMA(12) - EMA(26).  On the 26-bar constant series the stored column
is still undefined at position 25 (its signal-line subtrahend needs nine
defined MACD values) while EMA(12) - EMA(26) is defined there, so the two
series differ.  The second half of the claim does hold on the code: the
stored MACD_Signal column is the EMA(9) of the MACD line. -/
theorem C1_stored_macd_is_histogram :
    ∃ df : Frame,
      calculate_technical_indicators (fun q => q) (some flatFrame26) = some df
      ∧ Frame.col df ("MACD") = macd_diff (Frame.col flatFrame26 ("Close"))
      ∧ Frame.col df ("MACD_Signal") = macd_signal (Frame.col flatFrame26 ("Close"))
      ∧ (Frame.col df ("MACD")).get? 25 = some none
      ∧ (∃ v : ℚ,
          (List.zipWith osub (Frame.col df ("EMA_12")) (Frame.col df ("EMA_26"))).get? 25
            = some (some v))
      ∧ (Frame.col df ("MACD")).get? 25
          ≠ (List.zipWith osub (Frame.col df ("EMA_12")) (Frame.col df ("EMA_26"))).get? 25 := by
  obtain ⟨df, hdf, hClose, _, _, hE12, hE26, hMACD, hSig, _, _, _, _⟩ :=
    calcTI_cols (fun q => q) flatFrame26 (by decide)
  have h4 : (Frame.col df ("MACD")).get? 25 = some none := by
    rw [hMACD]
    rfl
  have h5 : ∃ v : ℚ,
      (List.zipWith osub (Frame.col df ("EMA_12")) (Frame.col df ("EMA_26"))).get? 25
        = some (some v) := by
    rw [hE12, hE26]
    exact ⟨_, rfl⟩
  obtain ⟨v, hv⟩ := h5
  refine ⟨df, hdf, hMACD, hSig, h4, ⟨v, hv⟩, ?_⟩
  rw [h4, hv]
  simp

theorem C7_undefined_inputs_give_hold_witness :
    crossoverSignal [] [] = Signal.HOLD
  ∧ rsiSignal [] = Signal.HOLD
  ∧ bollingerSignal [] [] [] = Signal.HOLD
  ∧ stochasticSignal [] [] = Signal.HOLD
  ∧ generate_signals (calculate_technical_indicators (fun q => q) (some flatFrame10))
      = some [(("MA_Crossover"), Signal.HOLD), (("MACD"), Signal.HOLD),
              (("RSI"), Signal.HOLD), (("Bollinger_Bands"), Signal.HOLD),
              (("Stochastic"), Signal.HOLD)]
  ∧ calculate_signal_strength (signalValues (generate_signals
      (calculate_technical_indicators (fun q => q) (some flatFrame10)))) = (50, ("HOLD")) :=
  ⟨C7_undefined_inputs_give_hold.1 [] [] (Or.inl rfl),
   C7_undefined_inputs_give_hold.2.1 [] rfl,
   C7_undefined_inputs_give_hold.2.2.1 [] [] [] rfl rfl,
   C7_undefined_inputs_give_hold.2.2.2.1 [] [] (Or.inl rfl),
   (C7_undefined_inputs_give_hold.2.2.2.2 (fun q => q)).1,
   (C7_undefined_inputs_give_hold.2.2.2.2 (fun q => q)).2⟩

end StockAnalyzer
